import Mathlib

/-!
Shallow embedding of `src/denonavr/audyssey.py` (class `Audyssey`), the
Audyssey-settings adapter of a Denon AVR receiver.

Modelling conventions:
- The HTTP transport and XML parsing performed by `send_command` are
  abstracted by its outcome: an `Option XmlElem` (`none` for any transport
  failure, missing body, or malformed XML; `some root` for a parsed
  response).  All claims here quantify over that outcome.
- Python exceptions that can escape a method are modelled with
  `Except PyError`; a method that cannot raise is a total function.
- `MULTI_EQ_MAP_LABELS`, `REF_LVL_OFFSET_MAP_LABELS` and
  `DYNAMIC_VOLUME_MAP_LABELS` are built in the source with *set*
  comprehensions, so they are Python `set` objects; calling `.get` on a
  set raises `AttributeError`.  `setGet` models that attribute access.
-/

namespace Audyssey

/-- Python exceptions that can escape the methods modelled here. -/
inductive PyError where
  | valueError
  | attributeError
deriving DecidableEq, Repr

/-- A parsed XML element as used by the adapter: tag, attributes,
optional text, children (mirrors `xml.etree.ElementTree.Element`). -/
inductive XmlElem where
  | mk (tag : String) (attrs : List (String × String)) (text : Option String)
      (children : List XmlElem)

def XmlElem.tag : XmlElem → String
  | .mk t _ _ _ => t

def XmlElem.attrs : XmlElem → List (String × String)
  | .mk _ a _ _ => a

def XmlElem.text : XmlElem → Option String
  | .mk _ _ x _ => x

def XmlElem.children : XmlElem → List XmlElem
  | .mk _ _ _ c => c

/-- Python `element.get(key)`: look up an attribute (first binding wins). -/
def XmlElem.get (e : XmlElem) (k : String) : Option String :=
  (e.attrs.find? (fun p => p.1 = k)).map Prod.snd

/-- Python `element.find(tag)`: first direct child with the given tag. -/
def XmlElem.findChild (e : XmlElem) (t : String) : Option XmlElem :=
  e.children.find? (fun c => c.tag = t)

/-- Source `response.find("./cmd/list")`: the first `list` child of the first
`cmd` child that has one, in document order. -/
def XmlElem.findCmdList (e : XmlElem) : Option XmlElem :=
  (e.children.filter (fun c => c.tag = "cmd")).findSome?
    (fun c => c.findChild "list")

/-- Digits of a Python decimal integer literal: nonempty, all ASCII digits. -/
def pyIntDigits (cs : List Char) : Option Nat :=
  if cs ≠ [] ∧ cs.all Char.isDigit then
    some (cs.foldl (fun n c => 10 * n + (c.toNat - 48)) 0)
  else none

/-- Sign handling of Python `int(...)` on an already-stripped string. -/
def pyIntCore : List Char → Option Int
  | [] => none
  | '-' :: rest => (pyIntDigits rest).map (fun n => -(n : Int))
  | '+' :: rest => (pyIntDigits rest).map (fun n => (n : Int))
  | cs => (pyIntDigits cs).map (fun n => (n : Int))

/-- Models Python `int(s)` on a string: optional surrounding whitespace,
optional sign, one or more ASCII decimal digits; `none` models the
`ValueError` raised otherwise.  (Python additionally accepts underscores
between digits and non-ASCII digits; those forms do not occur in this
protocol and are mapped to `none`.) -/
def pyInt (s : String) : Option Int :=
  pyIntCore
    (((s.toList.dropWhile Char.isWhitespace).reverse.dropWhile
      Char.isWhitespace).reverse)

/-- Source dict MULTI_EQ_MAP: codes "0".."3" to labels Off, Flat, L/R Bypass, Reference. -/
def MULTI_EQ_MAP : List (String × String) :=
  [("0", "Off"), ("1", "Flat"), ("2", "L/R Bypass"), ("3", "Reference")]

/-- Source dict REF_LVL_OFFSET_MAP: codes "0".."3" to labels 0dB, +5dB, +10dB, +15dB. -/
def REF_LVL_OFFSET_MAP : List (String × String) :=
  [("0", "0dB"), ("1", "+5dB"), ("2", "+10dB"), ("3", "+15dB")]

/-- Source dict DYNAMIC_VOLUME_MAP: codes "0".."3" to labels Off, Light, Medium, Heavy. -/
def DYNAMIC_VOLUME_MAP : List (String × String) :=
  [("0", "Off"), ("1", "Light"), ("2", "Medium"), ("3", "Heavy")]

/-- Source MULTI_EQ_MAP_LABELS: a Python *set* of `(label, code)` pairs (set
comprehension over the items of `MULTI_EQ_MAP`), not a dict. -/
def MULTI_EQ_MAP_LABELS : List (String × String) :=
  MULTI_EQ_MAP.map (fun p => (p.2, p.1))

/-- Source REF_LVL_OFFSET_MAP_LABELS: a Python *set* of `(label, code)` pairs. -/
def REF_LVL_OFFSET_MAP_LABELS : List (String × String) :=
  REF_LVL_OFFSET_MAP.map (fun p => (p.2, p.1))

/-- Source DYNAMIC_VOLUME_MAP_LABELS: a Python *set* of `(label, code)` pairs. -/
def DYNAMIC_VOLUME_MAP_LABELS : List (String × String) :=
  DYNAMIC_VOLUME_MAP.map (fun p => (p.2, p.1))

/-- Python `dict.get(key)` where the key may be Python `None` (`element.text`):
a `None` key is simply absent, yielding `None`. -/
def mapGet (m : List (String × String)) (k : Option String) : Option String :=
  k.bind (fun key => (m.find? (fun p => p.1 = key)).map Prod.snd)

/-- Python `set` objects have no `get` attribute: `SOME_SET.get(x)` raises
`AttributeError` for every set and every argument.  The label "maps" above
are sets, so this models the setters' reverse lookup. -/
def setGet (_m : List (String × String)) (_k : String) : Except PyError String :=
  .error .attributeError

/-- The `reflevoffset` field can hold Python `None`, the sentinel `False`,
or a label string. -/
inductive RefLevValue where
  | null
  | sentinelFalse
  | label (s : String)
deriving DecidableEq, Repr

/-- In-memory state of the `Audyssey` object: the four setting fields and
their `*_control` companions, all starting unset (`None`). -/
structure AudysseyState where
  dynamiceq : Option Bool
  dynamiceq_control : Option Bool
  reflevoffset : RefLevValue
  reflevoffset_control : Option Bool
  dynamicvol : Option String
  dynamicvol_control : Option Bool
  multeq : Option String
  multeq_control : Option Bool
deriving DecidableEq, Repr

/-- State after `__init__`: every field `None`. -/
def initialState : AudysseyState :=
  { dynamiceq := none, dynamiceq_control := none
    reflevoffset := .null, reflevoffset_control := none
    dynamicvol := none, dynamicvol_control := none
    multeq := none, multeq_control := none }

/-- The `valid_params` list of `update`. -/
def valid_params : List String :=
  ["dynamiceq", "reflevoffset", "dynamicvol", "multeq"]

/-- Result of `REF_LVL_OFFSET_MAP.get(param.text)` stored into `reflevoffset`:
an unmapped or absent code leaves the field `None`, a mapped one a label. -/
def refLevFromWire (t : Option String) : RefLevValue :=
  match mapGet REF_LVL_OFFSET_MAP t with
  | none => .null
  | some lbl => .label lbl

/-- Models setattr of the formatted attribute name `name + "_control"` for
the four valid parameter names. -/
def setControl (s : AudysseyState) (nm : String) (b : Bool) : AudysseyState :=
  if nm = "multeq" then { s with multeq_control := some b }
  else if nm = "dynamiceq" then { s with dynamiceq_control := some b }
  else if nm = "reflevoffset" then { s with reflevoffset_control := some b }
  else if nm = "dynamicvol" then { s with dynamicvol_control := some b }
  else s

/-- One iteration of the `for param in audyssey_params` loop of `update`:
returns the state after this element together with the `ValueError`, if
any, that aborts the loop (`int(...)` on non-integer text).  The value
assignment happens before the `control` attribute is parsed, so a bad
`control` still leaves the value assigned. -/
def processParam (s : AudysseyState) (p : XmlElem) :
    AudysseyState × Option PyError :=
  match p.get "name" with
  | none => (s, none)
  | some nm =>
    if nm ∈ valid_params then
      let step1 : AudysseyState × Option PyError :=
        if nm = "multeq" then
          ({ s with multeq := mapGet MULTI_EQ_MAP p.text }, none)
        else if nm = "dynamiceq" then
          match p.text with
          | none => ({ s with dynamiceq := none }, none)
          | some t =>
            match pyInt t with
            | none => (s, some .valueError)
            | some n => ({ s with dynamiceq := some (n ≠ 0) }, none)
        else if nm = "reflevoffset" then
          (if s.dynamiceq = some false then
            { s with reflevoffset := .sentinelFalse }
          else
            { s with reflevoffset := refLevFromWire p.text }, none)
        else if nm = "dynamicvol" then
          ({ s with dynamicvol := mapGet DYNAMIC_VOLUME_MAP p.text }, none)
        else (s, none)
      match step1 with
      | (s1, some e) => (s1, some e)
      | (s1, none) =>
        match p.get "control" with
        | none => (s1, none)
        | some c =>
          match pyInt c with
          | none => (s1, some .valueError)
          | some n => (setControl s1 nm (n ≠ 0), none)
    else (s, none)

/-- The whole `for` loop of `update`: fields are assigned element by
element in response order; an aborting element stops the loop but keeps
all earlier assignments. -/
def updateLoop : AudysseyState → List XmlElem → AudysseyState × Option PyError
  | s, [] => (s, none)
  | s, p :: ps =>
    match processParam s p with
    | (s1, some e) => (s1, some e)
    | (s1, none) => updateLoop s1 ps

/-- Method `update()`, parameterized by the outcome of `send_command` (the
GetAudyssey request itself carries no information relevant to the state).
Returns the new state and either the boolean result or the escaping
exception; on an exception the partially updated state is kept (the real
object is mutated in place). -/
def update (s : AudysseyState) (resp : Option XmlElem) :
    AudysseyState × Except PyError Bool :=
  match resp with
  | none => (s, .ok false)
  | some r =>
    match r.findCmdList with
    | none => (s, .ok false)
    | some lst =>
      match updateLoop s lst.children with
      | (s1, none) => (s1, .ok true)
      | (s1, some e) => (s1, .error e)

/-- Result of `_set_audyssey(parameter, value)`, parameterized by the outcome
of `send_command`: `True` only when the first `cmd` child of the parsed
response has text exactly `"OK"`; a `None` response, a missing `cmd` child
(the caught `AttributeError`) or any other text gives `False`. -/
def _set_audyssey (resp : Option XmlElem) : Bool :=
  match resp with
  | none => false
  | some r =>
    match r.findChild "cmd" with
    | none => false
    | some c => c.text = some "OK"

/-- Method `dynamiceq_off()`: send code 0, on `True` set the field to `False`.
The second component records whether a request was sent. -/
def dynamiceq_off (s : AudysseyState) (resp : Option XmlElem) :
    Except PyError AudysseyState × Bool :=
  (if _set_audyssey resp then .ok { s with dynamiceq := some false }
   else .ok s, true)

/-- Method `dynamiceq_on()`: send code 1, on `True` set the field to `True`. -/
def dynamiceq_on (s : AudysseyState) (resp : Option XmlElem) :
    Except PyError AudysseyState × Bool :=
  (if _set_audyssey resp then .ok { s with dynamiceq := some true }
   else .ok s, true)

/-- Method `set_multieq(setting)`: `MULTI_EQ_MAP_LABELS.get(setting)` is attribute
access on a set, so it raises before anything is sent; the dead success
path mirrors the source. -/
def set_multieq (s : AudysseyState) (setting : String)
    (resp : Option XmlElem) : Except PyError AudysseyState × Bool :=
  match setGet MULTI_EQ_MAP_LABELS setting with
  | .error e => (.error e, false)
  | .ok _v =>
    (if _set_audyssey resp then .ok { s with multeq := some setting }
     else .ok s, true)

/-- Method `set_reflevoffset(setting)`: guarded by `self.dynamiceq is True`;
inside the guard, `REF_LVL_OFFSET_MAP_LABELS.get` is attribute access on a
set. -/
def set_reflevoffset (s : AudysseyState) (setting : String)
    (resp : Option XmlElem) : Except PyError AudysseyState × Bool :=
  if s.dynamiceq = some true then
    match setGet REF_LVL_OFFSET_MAP_LABELS setting with
    | .error e => (.error e, false)
    | .ok _v =>
      (if _set_audyssey resp then
        .ok { s with reflevoffset := .label setting }
       else .ok s, true)
  else (.ok s, false)

/-- Method `set_dynamicvol(setting)`: `DYNAMIC_VOLUME_MAP_LABELS.get(setting)` is
attribute access on a set. -/
def set_dynamicvol (s : AudysseyState) (setting : String)
    (resp : Option XmlElem) : Except PyError AudysseyState × Bool :=
  match setGet DYNAMIC_VOLUME_MAP_LABELS setting with
  | .error e => (.error e, false)
  | .ok _v =>
    (if _set_audyssey resp then .ok { s with dynamicvol := some setting }
     else .ok s, true)

/-- A `<param name=... control=...>text</param>` element. -/
def mkParam (name : String) (txt : Option String)
    (extraAttrs : List (String × String)) : XmlElem :=
  .mk "param" (("name", name) :: extraAttrs) txt []

/-- A Get response `<rx><cmd><list>params</list></cmd></rx>`. -/
def mkGetResponse (params : List XmlElem) : XmlElem :=
  .mk "rx" [] none [.mk "cmd" [] none [.mk "list" [] none params]]

/-- A Set response `<rx><cmd>OK</cmd></rx>`. -/
def okSetResponse : XmlElem :=
  .mk "rx" [] none [.mk "cmd" [] (some "OK") []]

/-! ## Helper lemmas -/

/-- Shared lemma: an element named `reflevoffset` processed while the
in-memory `dynamiceq` is exactly `False` forces the `reflevoffset` field
to the sentinel, whatever its text and `control` attribute. -/
theorem processParam_reflev_forced (s : AudysseyState) (p : XmlElem)
    (h1 : p.get "name" = some "reflevoffset")
    (h2 : s.dynamiceq = some false) :
    (processParam s p).1.reflevoffset = RefLevValue.sentinelFalse := by
  unfold processParam
  rw [h1]
  cases hc : p.get "control" with
  | none => simp [valid_params, h2, hc]
  | some c =>
    cases hn : pyInt c with
    | none => simp [valid_params, h2, hc, hn]
    | some n => simp [valid_params, h2, hc, hn, setControl]

/-- Shared lemma: a loop element processed without error passes the updated
state to the rest of the loop. -/
theorem updateLoop_cons_ok (s s1 : AudysseyState) (p : XmlElem)
    (ps : List XmlElem) (h : processParam s p = (s1, none)) :
    updateLoop s (p :: ps) = updateLoop s1 ps := by
  simp only [updateLoop, h]

/-- Shared lemma: on a one-element list the loop's final state is the
state after that element, whether or not it aborts. -/
theorem updateLoop_fst_singleton (s : AudysseyState) (p : XmlElem) :
    (updateLoop s [p]).1 = (processParam s p).1 := by
  unfold updateLoop
  rcases h : processParam s p with ⟨s1, oe⟩
  cases oe <;> simp [updateLoop]

/-- Shared lemma: when `cmd/list` is found, `update`'s final state is the
loop's final state. -/
theorem update_fst_of_cmdList (s : AudysseyState) (r lst : XmlElem)
    (h : r.findCmdList = some lst) :
    (update s (some r)).1 = (updateLoop s lst.children).1 := by
  rcases hl : updateLoop s lst.children with ⟨s1, oe⟩
  unfold update
  dsimp only
  rw [h]
  dsimp only
  rw [hl]
  cases oe <;> rfl

/-! ## Claims -/

/-- Claim C1 (code_bug evidence): contrary to the never-raise policy,
every call to `set_multieq` — any state, any label, any transport
outcome — raises `AttributeError` before sending anything, because
`MULTI_EQ_MAP_LABELS` is a set and has no `get` method. -/
theorem C1_set_multieq_always_raises (s : AudysseyState) (setting : String)
    (resp : Option XmlElem) :
    set_multieq s setting resp = (Except.error PyError.attributeError, false) :=
  rfl

/-- Claim C2 (amended): whenever `update()` processes a `reflevoffset`
param element while the in-memory `dynamiceq` field equals `False`, the
`reflevoffset` field is forced to the sentinel `False`, never a label.
The original all-reachable-states invariant fails (see the
counterexample). -/
theorem C2_reflev_forced_while_dynamiceq_false (s : AudysseyState)
    (p : XmlElem) (h1 : p.get "name" = some "reflevoffset")
    (h2 : s.dynamiceq = some false) :
    (processParam s p).1.reflevoffset = RefLevValue.sentinelFalse :=
  processParam_reflev_forced s p h1 h2

/-- Witness for C2: a concrete state with `dynamiceq = False` and a
concrete `reflevoffset` param carrying code "2". -/
theorem C2_reflev_forced_witness :
    (mkParam "reflevoffset" (some "2") []).get "name" = some "reflevoffset" ∧
    ({ initialState with dynamiceq := some false } : AudysseyState).dynamiceq
      = some false ∧
    (processParam { initialState with dynamiceq := some false }
        (mkParam "reflevoffset" (some "2") [])).1.reflevoffset
      = RefLevValue.sentinelFalse :=
  ⟨rfl, rfl, C2_reflev_forced_while_dynamiceq_false _ _ rfl rfl⟩

/-- A Get response reporting only `reflevoffset = 2`. -/
def reflevOnlyResp : XmlElem :=
  mkGetResponse [mkParam "reflevoffset" (some "2") []]

/-- The state after a successful `update()` on `reflevOnlyResp` from the
initial state. -/
def c2mid : AudysseyState := (update initialState (some reflevOnlyResp)).1

/-- The state after a subsequent successful `dynamiceq_off()`. -/
def c2final : AudysseyState := { c2mid with dynamiceq := some false }

/-- Counterexample to claim C2 as stated: a successful `update()` whose
response reports only `reflevoffset` (in-memory `dynamiceq` still `None`)
stores the label "+10dB"; a subsequent successful `dynamiceq_off()` sets
`dynamiceq = False` without resetting `reflevoffset`, so a reachable state
has `dynamiceq = False` and `reflevoffset` a label. -/
theorem C2_invariant_counterexample :
    (update initialState (some reflevOnlyResp)).2 = Except.ok true ∧
    (dynamiceq_off c2mid (some okSetResponse)).1 = Except.ok c2final ∧
    c2final.dynamiceq = some false ∧
    c2final.reflevoffset = RefLevValue.label "+10dB" :=
  ⟨rfl, rfl, rfl, rfl⟩

/-- Claim C3 (amended): if the response's `cmd/list` consists of a
`dynamiceq` param with text "0" followed by a `reflevoffset` param
carrying any code (any text, any further attributes) — the order in
which the request lists the parameters — then `update()` leaves the
`reflevoffset` field equal to the sentinel `False`, from any starting
state.  The original claim, with no order constraint, fails (see the
counterexample). -/
theorem C3_reflev_sentinel_when_dynamiceq_reported_first (s : AudysseyState)
    (t : Option String) (a : List (String × String)) :
    (update s (some (mkGetResponse
      [mkParam "dynamiceq" (some "0") [],
       mkParam "reflevoffset" t a]))).1.reflevoffset
      = RefLevValue.sentinelFalse := by
  rw [update_fst_of_cmdList s
    (mkGetResponse
      [mkParam "dynamiceq" (some "0") [], mkParam "reflevoffset" t a])
    (XmlElem.mk "list" [] none
      [mkParam "dynamiceq" (some "0") [], mkParam "reflevoffset" t a]) rfl]
  rw [show (XmlElem.mk "list" [] none
      [mkParam "dynamiceq" (some "0") [], mkParam "reflevoffset" t a]).children
    = [mkParam "dynamiceq" (some "0") [], mkParam "reflevoffset" t a] from rfl]
  rw [updateLoop_cons_ok s { s with dynamiceq := some false }
    (mkParam "dynamiceq" (some "0") []) [mkParam "reflevoffset" t a] rfl]
  rw [updateLoop_fst_singleton]
  exact processParam_reflev_forced _ _ rfl rfl

/-- A Get response listing `reflevoffset = 2` before `dynamiceq = 0`. -/
def reflevBeforeDynEqResp : XmlElem :=
  mkGetResponse
    [mkParam "reflevoffset" (some "2") [], mkParam "dynamiceq" (some "0") []]

/-- Counterexample to claim C3 as stated: a response reporting
`dynamiceq = 0` and `reflevoffset = 2`, with `reflevoffset` listed first,
leaves `reflevoffset` equal to the label "+10dB", not the sentinel, and
the call still returns `True`. -/
theorem C3_counterexample :
    (update initialState (some reflevBeforeDynEqResp)).2 = Except.ok true ∧
    (update initialState (some reflevBeforeDynEqResp)).1.dynamiceq
      = some false ∧
    (update initialState (some reflevBeforeDynEqResp)).1.reflevoffset
      = RefLevValue.label "+10dB" :=
  ⟨rfl, rfl, rfl⟩


/-- Claim C4: `_set_audyssey` returns `True` iff the parsed response has a
top-level `cmd` child whose text is exactly "OK"; a `None` response, a
missing `cmd` child or any other text yields `False`.  The function is
total (never raises): the `AttributeError` of `.text` on a missing node is
caught in the source. -/
theorem C4_set_audyssey_ok_iff (resp : Option XmlElem) :
    _set_audyssey resp = true ↔
      ∃ r c, resp = some r ∧ r.findChild "cmd" = some c ∧
        c.text = some "OK" := by
  cases resp with
  | none => simp [_set_audyssey]
  | some r =>
    cases hc : r.findChild "cmd" with
    | none => simp [_set_audyssey, hc]
    | some c => simp [_set_audyssey, hc]

/-- A response outcome with no usable `cmd/list` node: either no parsed
response at all, or a root lacking the node. -/
def lacksCmdList : Option XmlElem → Prop
  | none => True
  | some r => r.findCmdList = none

/-- Claim C5: for every response that is `None` or lacks a `cmd/list`
node, `update()` returns `False` and leaves the state — all eight fields —
unchanged. -/
theorem C5_update_no_cmdList_unchanged (s : AudysseyState)
    (resp : Option XmlElem) (h : lacksCmdList resp) :
    update s resp = (s, Except.ok false) := by
  cases resp with
  | none => rfl
  | some r =>
    have hr : r.findCmdList = none := h
    unfold update
    dsimp only
    rw [hr]

/-- Witness for C5: a parsed root element with no children at all. -/
theorem C5_update_no_cmdList_witness :
    lacksCmdList (some (XmlElem.mk "rx" [] none [])) ∧
    update initialState (some (XmlElem.mk "rx" [] none []))
      = (initialState, Except.ok false) :=
  ⟨rfl, C5_update_no_cmdList_unchanged _ _ rfl⟩

/-- Claim C6: for every label and every state whose `dynamiceq` is not
exactly `True` (`None` or `False`), `set_reflevoffset` sends nothing
(second component `false`) and returns the state unchanged, without
raising. -/
theorem C6_set_reflevoffset_noop (s : AudysseyState) (setting : String)
    (resp : Option XmlElem) (h : s.dynamiceq ≠ some true) :
    set_reflevoffset s setting resp = (Except.ok s, false) := by
  unfold set_reflevoffset
  rw [if_neg h]

/-- Witness for C6: the initial state (`dynamiceq = None`). -/
theorem C6_set_reflevoffset_noop_witness :
    initialState.dynamiceq ≠ some true ∧
    set_reflevoffset initialState "+5dB" none
      = (Except.ok initialState, false) :=
  ⟨by decide, C6_set_reflevoffset_noop initialState "+5dB" none (by decide)⟩

/-- Claim C7 (code_bug evidence): contrary to the claim that an unmapped
label is sent as the wire value "None" and rejected by the device,
`set_dynamicvol` — for every state, every label (unmapped or not) and
every transport outcome — raises `AttributeError` before sending anything,
because `DYNAMIC_VOLUME_MAP_LABELS` is a set and has no `get` method. -/
theorem C7_set_dynamicvol_always_raises (s : AudysseyState)
    (setting : String) (resp : Option XmlElem) :
    set_dynamicvol s setting resp
      = (Except.error PyError.attributeError, false) :=
  rfl

/-- The Get response of claim C8: `multeq = 3`, `dynamiceq = 1`,
`reflevoffset = 2`, `dynamicvol = 0`, each with `control = "1"`. -/
def c8resp : XmlElem :=
  mkGetResponse
    [mkParam "multeq" (some "3") [("control", "1")],
     mkParam "dynamiceq" (some "1") [("control", "1")],
     mkParam "reflevoffset" (some "2") [("control", "1")],
     mkParam "dynamicvol" (some "0") [("control", "1")]]

/-- The state claim C8 expects after `update()`. -/
def c8final : AudysseyState :=
  { dynamiceq := some true, dynamiceq_control := some true
    reflevoffset := .label "+10dB", reflevoffset_control := some true
    dynamicvol := some "Off", dynamicvol_control := some true
    multeq := some "Reference", multeq_control := some true }

/-- Claim C8: from the initial all-`None` state, `update()` on that
response succeeds and yields `multeq = "Reference"`, `dynamiceq = True`,
`reflevoffset = "+10dB"`, `dynamicvol = "Off"` and all four `*_control`
flags `True`. -/
theorem C8_example_update :
    update initialState (some c8resp) = (c8final, Except.ok true) :=
  rfl

/-- Claim C9: for every `dynamiceq` param whose text parses as a decimal
integer `n`, `update()` succeeds and sets the `dynamiceq` field to the
boolean `n ≠ 0` — so wire text other than "0"/"1" (e.g. "2") still gives
a boolean, never `None`. -/
theorem C9_dynamiceq_integer_to_bool (s : AudysseyState) (t : String)
    (n : Int) (h : pyInt t = some n) :
    update s (some (mkGetResponse [mkParam "dynamiceq" (some t) []]))
      = ({ s with dynamiceq := some (decide (n ≠ 0)) }, Except.ok true) := by
  have hp : processParam s (mkParam "dynamiceq" (some t) []) =
      ({ s with dynamiceq := some (decide (n ≠ 0)) }, none) := by
    unfold processParam
    rw [show (mkParam "dynamiceq" (some t) []).get "name"
      = some "dynamiceq" from rfl]
    rw [show (mkParam "dynamiceq" (some t) []).text = some t from rfl]
    rw [show (mkParam "dynamiceq" (some t) []).get "control" = none from rfl]
    simp [valid_params, h]
  unfold update
  dsimp only
  rw [show (mkGetResponse [mkParam "dynamiceq" (some t) []]).findCmdList
    = some (XmlElem.mk "list" [] none [mkParam "dynamiceq" (some t) []])
    from rfl]
  dsimp only
  rw [show (XmlElem.mk "list" [] none
      [mkParam "dynamiceq" (some t) []]).children
    = [mkParam "dynamiceq" (some t) []] from rfl]
  simp only [updateLoop, hp]

/-- Witness for C9: wire text "2" yields `dynamiceq = True`, not `None`. -/
theorem C9_dynamiceq_integer_witness :
    pyInt "2" = some 2 ∧
    update initialState
        (some (mkGetResponse [mkParam "dynamiceq" (some "2") []]))
      = ({ initialState with dynamiceq := some (decide ((2 : Int) ≠ 0)) },
         Except.ok true) :=
  ⟨by decide, C9_dynamiceq_integer_to_bool initialState "2" 2 (by decide)⟩

/-- The response of claim C10: a valid `multeq` param, then a `dynamiceq`
param with non-integer text "x" (which raises `ValueError`), then a valid
`dynamicvol` param that is never reached. -/
def c10resp : XmlElem :=
  mkGetResponse
    [mkParam "multeq" (some "3") [],
     mkParam "dynamiceq" (some "x") [],
     mkParam "dynamicvol" (some "1") []]

/-- Claim C10: `update()` assigns fields element by element and is not
atomic: on that response the call aborts with `ValueError`, yet `multeq`
(assigned before the abort) keeps its new value "Reference" while the
later `dynamicvol` element was never processed — a failed `update()`
leaves the state partially modified. -/
theorem C10_partial_update_on_abort :
    (update initialState (some c10resp)).2
      = Except.error PyError.valueError ∧
    initialState.multeq = none ∧
    (update initialState (some c10resp)).1.multeq = some "Reference" ∧
    (update initialState (some c10resp)).1.dynamicvol = none :=
  ⟨rfl, rfl, rfl, rfl⟩

end Audyssey
